import Mathlib

/-!
# Verification of the VoxGine ECS core and chunk/pool subsystem

Shallow embedding of the entity-component-system core of the VoxGine voxel
engine (`Atlas/System.h`, `Atlas/SystemManager.h`, `Rendering/Chunk.h`,
`Math/Transform.inl`) together with theorems settling the specification's
claims about it.

Bitmasks (`std::bitset<BITSIZE>`) are embedded as `Nat`: every operation the
code performs on them (`&`, `|`, `==`) is width-preserving, so the `Nat`
bitwise operations model them exactly for masks built from registry bits.
-/

namespace VoxGine

/-- A game object: a stable integer ID plus the bitmask of component types it
currently owns (`FGameObject`). -/
structure FGameObject where
  id : Nat
  componentMask : Nat
deriving DecidableEq

/-- A system (`ISystem`): its component-interest bitmask `mTypeBitMask`, its
system-identity bitmask `mSystemBitMask`, the ordered sequence of tracked
GameObject IDs `mGameObjectIDs`, and a tag standing for the concrete derived
C++ type (what `typeid` inspects).  The `FWorld&` back-reference carries no
state relevant to the claims and is omitted. -/
structure ISystem where
  typeTag : Nat
  typeBitMask : Nat
  systemBitMask : Nat
  gameObjectIDs : List Nat
deriving DecidableEq

/-- Modelled from the spec: `SComponentHandleManager::GetBitMask` (the
component registry, whose implementation is not under src/) assigns each
distinct component type a unique bit position; the mask for a type is the
single bit at that position. -/
def SComponentHandleManager.getBitMask (t : Nat) : Nat := 2 ^ t

/-- `ISystem::AddComponentType` (System.h, lines 99-103): ORs the registered
bit of the given component type into the system's interest mask
(`mTypeBitMask |= SComponentHandleManager::GetBitMask(Type)`). -/
def ISystem.addComponentType (s : ISystem) (t : Nat) : ISystem :=
  { s with typeBitMask := s.typeBitMask ||| SComponentHandleManager.getBitMask t }

/-- Modelled from the spec: the body of `ISystem::CheckInterest` lives in
System.cpp, which is not under src/ (System.h lines 38-45 give only its
contract).  Per spec section 4.2: compute
`(GameObject.componentMask & interestMask) == interestMask`; if true and the
ID is not already tracked, append the ID; if false and the ID is currently
tracked, remove it.  Only the tracked-ID sequence is mutated. -/
def ISystem.checkInterest (s : ISystem) (g : FGameObject) : ISystem :=
  if g.componentMask &&& s.typeBitMask = s.typeBitMask then
    if g.id ∈ s.gameObjectIDs then s
    else { s with gameObjectIDs := s.gameObjectIDs ++ [g.id] }
  else
    { s with gameObjectIDs := s.gameObjectIDs.filter (fun x => x != g.id) }

/-- The system manager (`FSystemManager`): the ordered sequence of owned
systems `mSystems`, in registration order. -/
structure FSystemManager where
  systems : List ISystem
deriving DecidableEq

/-- Modelled from the spec: the body of `FSystemManager::CheckInterest` lives
in SystemManager.cpp, which is not under src/ (SystemManager.h lines 77-83
give only its contract).  Per spec section 4.3 it forwards to every registered
system's `CheckInterest`, in registration order. -/
def FSystemManager.checkInterest (m : FSystemManager) (g : FGameObject) : FSystemManager :=
  { m with systems := m.systems.map (fun s => s.checkInterest g) }

/-- Modelled from the spec: `SSystemBitManager::GetBitMaskFor` (the system
registry, whose implementation is not under src/) assigns each distinct system
type a unique bit position in a bit space separate from components; the mask
for a system type is the single bit at that position. -/
def SSystemBitManager.getBitMaskFor (tag : Nat) : Nat := 2 ^ tag

/-- `FSystemManager::AddSystem<T>` (SystemManager.h lines 103-137): constructs
the new system, assigns it its system-identity bit via
`SSystemBitManager::GetBitMaskFor`, appends it to `mSystems`, and returns a
reference to it.  The argument `s` is the freshly constructed instance
(`new T(mWorld, ...)`); no branch of the source inspects the existing systems,
so the append is unconditional. -/
def FSystemManager.addSystem (m : FSystemManager) (s : ISystem) :
    FSystemManager × ISystem :=
  let sWithBit := { s with systemBitMask := SSystemBitManager.getBitMaskFor s.typeTag }
  ({ systems := m.systems ++ [sWithBit] }, sWithBit)

/-- Result of a C++ call that may trip an `assert`: either a returned value or
an assertion failure (which aborts the process in a debug build). -/
inductive CppCall (α : Type) where
  | ok (a : α)
  | assertFailed
deriving DecidableEq

/-- `FSystemManager::GetSystem<T>` (SystemManager.h lines 144-161): linear
scan over `mSystems` for the first system whose `typeid` matches `T`; then
`assert(dynamic_cast<T*>(SystemPtr))` — when nothing matched the scan left the
pointer null, the `dynamic_cast` of null is null, and the assertion fails. -/
def FSystemManager.getSystemByType (m : FSystemManager) (tag : Nat) :
    CppCall ISystem :=
  match m.systems.find? (fun s => s.typeTag == tag) with
  | some s => CppCall.ok s
  | none => CppCall.assertFailed

/-- `FSystemManager::GetSystem(Index)` (SystemManager.h lines 163-166):
`return mSystems[Index].get();` — an unguarded `std::vector::operator[]`
positional access; the total embedding returns `none` on the out-of-range
branch, which in the source is undefined behavior, not a not-found signal. -/
def FSystemManager.getSystemAt (m : FSystemManager) (i : Nat) : Option ISystem :=
  m.systems.get? i

/-- Modelled from the spec: `FPoolAllocator<BlockSize, Capacity>`
(Memory/PoolAllocator.h is not under src/; Chunk.h line 21 declares the
instance).  Per spec sections 3 and 4.5: a fixed-capacity free list of block
slots over one contiguous arena.  Block contents live with their owners
(see `FChunk`); the allocator state tracks which slots are free and which are
live. -/
structure FPoolAllocator where
  capacity : Nat
  freeList : List Nat
  allocated : List Nat
deriving DecidableEq

/-- Modelled from the spec: a freshly constructed pool has every one of its
`cap` block slots on the free list and no live blocks. -/
def FPoolAllocator.init (cap : Nat) : FPoolAllocator :=
  { capacity := cap, freeList := List.range cap, allocated := [] }

/-- Modelled from the spec: `Allocate()` pops a slot off the free list and
marks it live, or fails with an exhaustion signal when the free list is empty
— it never falls back to general-purpose allocation. -/
def FPoolAllocator.allocate (p : FPoolAllocator) : Option (Nat × FPoolAllocator) :=
  match p.freeList with
  | [] => none
  | i :: rest =>
    some (i, { p with freeList := rest, allocated := i :: p.allocated })

/-- Modelled from the spec: `Free(handle)` returns a currently-live block to
the free list; freeing a handle that is not live is guarded as a failure
(double-free guard, spec section 4.5). -/
def FPoolAllocator.free (p : FPoolAllocator) (i : Nat) : Option FPoolAllocator :=
  if i ∈ p.allocated then
    some { p with freeList := i :: p.freeList, allocated := p.allocated.erase i }
  else none

/-- `n` consecutive `Allocate()` calls, failing if any one of them fails. -/
def FPoolAllocator.allocMany : Nat → FPoolAllocator → Option FPoolAllocator
  | 0, p => some p
  | n + 1, p =>
    match p.allocate with
    | none => none
    | some (_, q) => FPoolAllocator.allocMany n q

/-- Chunk dimension (`FChunk::CHUNK_SIZE`, Chunk.h line 19). -/
def CHUNK_SIZE : Nat := 16

/-- Voxel records per chunk (`FChunk::BLOCKS_PER_CHUNK`, Chunk.h line 20). -/
def BLOCKS_PER_CHUNK : Nat := CHUNK_SIZE * CHUNK_SIZE * CHUNK_SIZE

/-- A voxel record (`FBlock`, Block.h is not under src/): per the spec a voxel
slot is either active or in the default inactive/air state. -/
structure FBlock where
  isActive : Bool
deriving DecidableEq

/-- The default (inactive/air) voxel record. -/
def FBlock.inactive : FBlock := { isActive := false }

/-- The chunk's derived mesh (`FMesh<FVoxelVertex>`, Mesh.h is not under
src/): the batched vertex buffer plus the active flag the renderer checks. -/
structure FMesh where
  vertices : List (Int × Int × Int)
  isActive : Bool
deriving DecidableEq

/-- A cleared, deactivated mesh (not rendered). -/
def FMesh.deactivated : FMesh := { vertices := [], isActive := false }

/-- A chunk (`FChunk`, Chunk.h lines 63-66): the pooled voxel block
(`mBlocks`, a pool handle plus the 4096 voxel records it addresses, `none`
when unloaded), the derived mesh `mMesh`, and the `mIsLoaded` flag. -/
structure FChunk where
  mBlocks : Option (Nat × List FBlock)
  mMesh : FMesh
  mIsLoaded : Bool
deriving DecidableEq

/-- `FChunk::FChunk()`: a freshly constructed chunk — no voxel block, a
cleared mesh, unloaded. -/
def FChunk.new : FChunk := { mBlocks := none, mMesh := FMesh.deactivated, mIsLoaded := false }

/-- `FChunk::ChunkAllocator` (Chunk.h line 21): the shared pool, capacity 500
blocks of `sizeof(FBlock) * BLOCKS_PER_CHUNK` bytes each. -/
def FChunk.chunkAllocator : FPoolAllocator := FPoolAllocator.init 500

/-- `FChunk::IsLoaded()`: pure query of the loaded flag. -/
def FChunk.isLoaded (c : FChunk) : Bool := c.mIsLoaded

/-- Modelled from the spec: `FChunk::Load` (Chunk.cpp is not under src/;
Chunk.h lines 30-34 give its contract).  Per spec section 4.4: request one
block from the shared pool, propagating exhaustion; on success initialize all
4096 voxel records to the default inactive state and mark Loaded. -/
def FChunk.load (c : FChunk) (pool : FPoolAllocator) :
    Option (FChunk × FPoolAllocator) :=
  match pool.allocate with
  | none => none
  | some (h, pool') =>
    some ({ c with
              mBlocks := some (h, List.replicate BLOCKS_PER_CHUNK FBlock.inactive),
              mIsLoaded := true },
          pool')

/-- Modelled from the spec: `FChunk::Unload` (Chunk.cpp is not under src/;
Chunk.h lines 36-39 give its contract).  Per spec section 4.4: release the
voxel block back to the pool, clear/deactivate the mesh, mark Unloaded; a
no-op on an already-unloaded chunk. -/
def FChunk.unload (c : FChunk) (pool : FPoolAllocator) :
    FChunk × FPoolAllocator :=
  match c.mBlocks with
  | none => (c, pool)
  | some (h, _) =>
    ({ c with mBlocks := none, mMesh := FMesh.deactivated, mIsLoaded := false },
     match pool.free h with
     | some q => q
     | none => pool)

/-- Overwrite the voxel records of a loaded chunk in place (the caller-side
voxel mutation the chunk API permits between `Load` and `BuildMesh`); keeps
the pool handle. -/
def FChunk.withBlocks (c : FChunk) (bs : List FBlock) : FChunk :=
  match c.mBlocks with
  | none => c
  | some (h, _) => { c with mBlocks := some (h, bs) }

/-- Voxel addressing within a chunk: x-major, then y, then z (spec section
4.4), over a `CHUNK_SIZE`-cubed block. -/
def blockIndex (x y z : Nat) : Nat :=
  x * CHUNK_SIZE * CHUNK_SIZE + y * CHUNK_SIZE + z

/-- Whether the voxel record at chunk-local coordinates is active. -/
def blockActiveAt (bs : List FBlock) (x y z : Nat) : Bool :=
  match bs.get? (blockIndex x y z) with
  | some b => b.isActive
  | none => false

/-- The six axis-aligned face directions of a voxel cube. -/
def faceDirections : List (Int × Int × Int) :=
  [(1, 0, 0), (-1, 0, 0), (0, 1, 0), (0, -1, 0), (0, 0, 1), (0, 0, -1)]

/-- A coordinate lies inside the chunk. -/
def inChunk (v : Int) : Bool :=
  decide (0 ≤ v) && decide (v < (CHUNK_SIZE : Int))

/-- Whether the neighbor voxel at the given (possibly out-of-chunk)
coordinates is active; voxels beyond the chunk boundary count as inactive, so
boundary faces are always exposed (spec section 4.4). -/
def neighborActive (bs : List FBlock) (x y z : Int) : Bool :=
  if inChunk x && inChunk y && inChunk z then
    blockActiveAt bs x.toNat y.toNat z.toNat
  else false

/-- The eight corners of the unit voxel cube at a position, in a fixed
order. -/
def cubeCorners (x y z : Int) : List (Int × Int × Int) :=
  [(x, y, z), (x, y, z + 1), (x, y + 1, z), (x, y + 1, z + 1),
   (x + 1, y, z), (x + 1, y, z + 1), (x + 1, y + 1, z), (x + 1, y + 1, z + 1)]

/-- Whether a cube corner lies on the face of the cube pointed to by
direction `d`. -/
def onFace (x y z : Int) (d : Int × Int × Int) (v : Int × Int × Int) : Bool :=
  (if d.1 == 1 then v.1 == x + 1 else if d.1 == -1 then v.1 == x else true) &&
  (if d.2.1 == 1 then v.2.1 == y + 1 else if d.2.1 == -1 then v.2.1 == y else true) &&
  (if d.2.2 == 1 then v.2.2 == z + 1 else if d.2.2 == -1 then v.2.2 == z else true)

/-- The quad of four vertices emitted for one exposed face (the `CreateCube`
geometry restricted to that face), in the fixed corner order. -/
def faceQuad (x y z : Int) (d : Int × Int × Int) : List (Int × Int × Int) :=
  (cubeCorners x y z).filter (onFace x y z d)

/-- Modelled from the spec: the vertex buffer `FChunk::BuildMesh` emits
(Chunk.cpp is not under src/; Chunk.h lines 51-54 give its contract).  Per
spec section 4.4: iterate all 4096 voxel slots in the fixed x-major scan
order; for each active voxel emit geometry only for faces whose neighbor is
inactive or beyond the chunk boundary; append the vertices into one batched
buffer. -/
def chunkVertices (bs : List FBlock) : List (Int × Int × Int) :=
  (List.range CHUNK_SIZE).flatMap fun x =>
    (List.range CHUNK_SIZE).flatMap fun y =>
      (List.range CHUNK_SIZE).flatMap fun z =>
        if blockActiveAt bs x y z then
          (faceDirections.filter fun d =>
              !neighborActive bs ((x : Int) + d.1) ((y : Int) + d.2.1)
                ((z : Int) + d.2.2)).flatMap
            fun d => faceQuad (x : Int) (y : Int) (z : Int) d
        else []

/-- Modelled from the spec: `FChunk::BuildMesh` — rebuilds the chunk's mesh
from the current voxel records, discarding any previous geometry; the new
vertex buffer is a function of the voxel records alone. -/
def FChunk.buildMesh (c : FChunk) : FChunk :=
  match c.mBlocks with
  | none => c
  | some (_, bs) =>
    { c with mMesh := { vertices := chunkVertices bs, isActive := true } }

/-- An IEEE-754 `float` as compared by `==`/`!=`: either an ordinary value or
a NaN.  IEEE `==` holds only between non-NaN equal values; `!=` is its exact
complement (true whenever an operand is NaN). -/
inductive FFloat where
  | num (val : Rat)
  | nan
deriving DecidableEq

/-- IEEE-754 `==` on `float`. -/
def FFloat.feq : FFloat → FFloat → Bool
  | FFloat.num a, FFloat.num b => a == b
  | _, _ => false

/-- IEEE-754 `!=` on `float`: the complement of `==`. -/
def FFloat.fne (a b : FFloat) : Bool := !(a.feq b)

/-- Modelled from the spec: `Vector3f` (a math primitive the spec treats as
an assumed-correct external library): three float components with
componentwise `==` and its complement `!=`. -/
structure Vector3f where
  x : FFloat
  y : FFloat
  z : FFloat
deriving DecidableEq

/-- `Vector3f::operator==`: componentwise float equality. -/
def Vector3f.veq (a b : Vector3f) : Bool :=
  a.x.feq b.x && a.y.feq b.y && a.z.feq b.z

/-- `Vector3f::operator!=`. -/
def Vector3f.vne (a b : Vector3f) : Bool := !(a.veq b)

/-- Modelled from the spec: `FQuaternion` (assumed-correct math primitive):
four float components with componentwise `==` and its complement `!=`. -/
structure FQuaternion where
  w : FFloat
  x : FFloat
  y : FFloat
  z : FFloat
deriving DecidableEq

/-- `FQuaternion::operator==`: componentwise float equality. -/
def FQuaternion.qeq (a b : FQuaternion) : Bool :=
  a.w.feq b.w && a.x.feq b.x && a.y.feq b.y && a.z.feq b.z

/-- `FQuaternion::operator!=`. -/
def FQuaternion.qne (a b : FQuaternion) : Bool := !(a.qeq b)

/-- `FTransform` (Transform.inl): parent back-reference (a raw pointer,
embedded as an optional address so pointer comparison is equality on
`Option Nat`), translation, rotation, scale. -/
structure FTransform where
  mParent : Option Nat
  mTranslation : Vector3f
  mRotation : FQuaternion
  mScale : Vector3f
deriving DecidableEq

/-- `FTransform::GetParent` (Transform.inl lines 86-89). -/
def FTransform.getParent (t : FTransform) : Option Nat := t.mParent

/-- `FTransform::GetPosition` (Transform.inl lines 46-49). -/
def FTransform.getPosition (t : FTransform) : Vector3f := t.mTranslation

/-- `FTransform::GetRotation` (Transform.inl lines 61-64). -/
def FTransform.getRotation (t : FTransform) : FQuaternion := t.mRotation

/-- `FTransform::GetScale` (Transform.inl lines 76-79). -/
def FTransform.getScale (t : FTransform) : Vector3f := t.mScale

/-- `operator==(FTransform, FTransform)` (Transform.inl lines 96-102):
conjunction of parent-pointer, position, rotation and scale comparisons. -/
def FTransform.teq (l r : FTransform) : Bool :=
  (l.getParent == r.getParent) &&
    l.getPosition.veq r.getPosition &&
    l.getRotation.qeq r.getRotation &&
    l.getScale.veq r.getScale

/-- `operator!=(FTransform, FTransform)` (Transform.inl lines 104-110):
disjunction of the componentwise `!=` comparisons. -/
def FTransform.tne (l r : FTransform) : Bool :=
  (l.getParent != r.getParent) ||
    l.getPosition.vne r.getPosition ||
    l.getRotation.qne r.getRotation ||
    l.getScale.vne r.getScale

/-- C1: after `ISystem::CheckInterest` evaluates a GameObject, the object's ID
is in the system's tracked sequence iff
`(componentMask & interestMask) == interestMask` (AND semantics), for every
component mask and every interest mask (zero, one, or many bits set). -/
theorem vg_C1_tracked_iff_mask_match (s : ISystem) (g : FGameObject) :
    g.id ∈ (s.checkInterest g).gameObjectIDs ↔
      g.componentMask &&& s.typeBitMask = s.typeBitMask := by
  unfold ISystem.checkInterest
  by_cases hmask : g.componentMask &&& s.typeBitMask = s.typeBitMask
  · simp only [hmask, if_true]
    by_cases hmem : g.id ∈ s.gameObjectIDs
    · simp [hmem, hmask]
    · simp [hmem, hmask]
  · simp only [hmask, if_false]
    simp [List.mem_filter, hmask]

/-- Helper: `ISystem::CheckInterest` is idempotent — a second evaluation of
the same unchanged GameObject leaves the system unchanged. -/
theorem ISystem.checkInterest_idem (s : ISystem) (g : FGameObject) :
    (s.checkInterest g).checkInterest g = s.checkInterest g := by
  by_cases hmask : g.componentMask &&& s.typeBitMask = s.typeBitMask
  · by_cases hmem : g.id ∈ s.gameObjectIDs
    · simp [ISystem.checkInterest, hmask, hmem]
    · simp [ISystem.checkInterest, hmask, hmem]
  · simp [ISystem.checkInterest, hmask, List.filter_filter]

/-- C2: `FSystemManager::CheckInterest` (which forwards to every registered
system's `CheckInterest` in registration order) is idempotent: with the
GameObject's component bitmask unchanged, the second call leaves every
system's tracked-ID sequence exactly as the first call left it — in
particular no ID is inserted twice. -/
theorem vg_C2_checkInterest_idempotent (m : FSystemManager) (g : FGameObject) :
    (m.checkInterest g).checkInterest g = m.checkInterest g ∧
      ∀ s : ISystem,
        ((s.checkInterest g).checkInterest g).gameObjectIDs =
          (s.checkInterest g).gameObjectIDs := by
  constructor
  · unfold FSystemManager.checkInterest
    simp only [List.map_map, FSystemManager.mk.injEq]
    exact List.map_congr_left (fun s _ => ISystem.checkInterest_idem s g)
  · intro s
    rw [ISystem.checkInterest_idem]

/-- C8: `ISystem::AddComponentType` (System.h lines 99-103) ORs the registered
bit of the component type into the interest mask and changes nothing else;
calls for distinct types accumulate and a repeated call for the same type is a
no-op on the mask. -/
theorem vg_C8_addComponentType_or (s : ISystem) (t u : Nat) :
    (s.addComponentType t).typeBitMask
        = s.typeBitMask ||| SComponentHandleManager.getBitMask t ∧
      (s.addComponentType t).typeTag = s.typeTag ∧
      (s.addComponentType t).systemBitMask = s.systemBitMask ∧
      (s.addComponentType t).gameObjectIDs = s.gameObjectIDs ∧
      ((s.addComponentType t).addComponentType u).typeBitMask
        = s.typeBitMask ||| SComponentHandleManager.getBitMask t
            ||| SComponentHandleManager.getBitMask u ∧
      (s.addComponentType t).addComponentType t = s.addComponentType t := by
  refine ⟨rfl, rfl, rfl, rfl, rfl, ?_⟩
  unfold ISystem.addComponentType
  congr 1
  rw [Nat.or_assoc, Nat.or_self]

/-- C3 counterexample: `AddSystem` never rejects a duplicate concrete type.
Adding two systems of the same concrete type (tag 0) to an empty manager
yields a manager holding two systems of that type, refuting the claim that
the second call "is rejected". -/
theorem vg_C3_cex_duplicate_not_rejected :
    (((FSystemManager.mk []).addSystem ⟨0, 0, 0, []⟩).1.addSystem
        ⟨0, 0, 0, []⟩).1.systems.length = 2 ∧
      ((((FSystemManager.mk []).addSystem ⟨0, 0, 0, []⟩).1.addSystem
          ⟨0, 0, 0, []⟩).1.systems.filter (fun s => s.typeTag == 0)).length = 2 := by
  exact ⟨rfl, rfl⟩

/-- C3 (amended): `AddSystem` constructs exactly one instance, assigns it its
system-identity bit via the system registry, appends it to the ordered system
sequence, and returns that instance — unconditionally: no duplicate check is
performed, so a second call for an already-registered concrete type appends a
second instance instead of being rejected. -/
theorem vg_C3_addSystem_appends_unconditionally (m : FSystemManager) (s : ISystem) :
    (m.addSystem s).1.systems = m.systems ++ [(m.addSystem s).2] ∧
      (m.addSystem s).2.systemBitMask = SSystemBitManager.getBitMaskFor s.typeTag ∧
      (m.addSystem s).2.typeTag = s.typeTag ∧
      (m.addSystem s).2.typeBitMask = s.typeBitMask ∧
      (m.addSystem s).2.gameObjectIDs = s.gameObjectIDs :=
  ⟨rfl, rfl, rfl, rfl, rfl⟩

/-- C4 counterexample: with no system of the requested type registered,
`GetSystem<T>` does not return a recoverable not-found result — it trips its
assertion (`assert(dynamic_cast<T*>(nullptr))`), aborting the process, as
evaluated here on an empty manager. -/
theorem vg_C4_cex_not_found_asserts :
    (FSystemManager.mk []).getSystemByType 0 = CppCall.assertFailed := rfl

/-- C4 (amended): when no system of the requested concrete type is registered,
`GetSystem<T>` fails its assertion (a crash, not a recoverable checked
not-found result); when such a system is registered, it returns it.  The
returned system is pinned down exactly: it is of the requested type and every
system registered before it is of a different type — i.e. the scan's first
match in registration order, which is observable because duplicate
registrations are possible. -/
theorem vg_C4_getSystemByType_spec (m : FSystemManager) (tag : Nat) :
    (m.getSystemByType tag = CppCall.assertFailed ↔
        ∀ s ∈ m.systems, s.typeTag ≠ tag) ∧
      ∀ s : ISystem, m.getSystemByType tag = CppCall.ok s →
        s.typeTag = tag ∧
          ∃ pre post, m.systems = pre ++ s :: post ∧
            ∀ t ∈ pre, t.typeTag ≠ tag := by
  unfold FSystemManager.getSystemByType
  constructor
  · rcases hfind : m.systems.find? (fun s => s.typeTag == tag) with _ | s
    · rw [hfind]
      simp only [List.find?_eq_none, beq_iff_eq] at hfind
      simpa using hfind
    · rw [hfind]
      simp only [reduceCtorEq, false_iff, not_forall]
      refine ⟨s, List.mem_of_find?_eq_some hfind, ?_⟩
      have := List.find?_some hfind
      simpa using this
  · intro s hs
    rcases hfind : m.systems.find? (fun x => x.typeTag == tag) with _ | t
    · rw [hfind] at hs
      exact absurd hs (by simp)
    · rw [hfind] at hs
      cases hs
      rw [List.find?_eq_some] at hfind
      obtain ⟨htag, pre, post, hsplit, hpre⟩ := hfind
      refine ⟨by simpa using htag, pre, post, hsplit, ?_⟩
      intro t ht
      have := hpre t ht
      simpa using this

/-- C4 witness: the amended behavior at concrete inputs — an empty manager
asserts, and a manager holding two systems of tag 7 returns the first of
them (nothing of type 7 is registered before it). -/
theorem vg_C4_getSystemByType_spec_witness :
    (FSystemManager.mk []).getSystemByType 3 = CppCall.assertFailed ∧
      ((⟨7, 1, 0, []⟩ : ISystem).typeTag = 7 ∧
        ∃ pre post,
          (FSystemManager.mk [⟨7, 1, 0, []⟩, ⟨7, 2, 0, []⟩]).systems
            = pre ++ (⟨7, 1, 0, []⟩ : ISystem) :: post ∧
          ∀ t ∈ pre, t.typeTag ≠ 7) :=
  ⟨(vg_C4_getSystemByType_spec ⟨[]⟩ 3).1.mpr (by simp),
    (vg_C4_getSystemByType_spec ⟨[⟨7, 1, 0, []⟩, ⟨7, 2, 0, []⟩]⟩ 7).2
      ⟨7, 1, 0, []⟩ rfl⟩

/-- C9: `GetSystem(Index)` is an unguarded positional access: for every index
below the number of registered systems it returns the system at that
insertion position (non-null), and at or beyond the count there is no bounds
check — the total embedding's out-of-range branch returns `none`, and it is
reachable. -/
theorem vg_C9_getSystemAt_positional (m : FSystemManager) (i : Nat) :
    (∀ h : i < m.systems.length,
        m.getSystemAt i = some (m.systems.get ⟨i, h⟩)) ∧
      (m.systems.length ≤ i → m.getSystemAt i = none) := by
  constructor
  · intro h
    exact List.get?_eq_get h
  · intro h
    exact List.get?_eq_none.mpr h

/-- C9 witness: on a one-system manager, index 0 yields a system and index 1
falls on the out-of-range branch. -/
theorem vg_C9_getSystemAt_positional_witness :
    (∃ s, (FSystemManager.mk [⟨0, 0, 0, []⟩]).getSystemAt 0 = some s) ∧
      (FSystemManager.mk [⟨0, 0, 0, []⟩]).getSystemAt 1 = none :=
  ⟨⟨_, (vg_C9_getSystemAt_positional ⟨[⟨0, 0, 0, []⟩]⟩ 0).1 (by decide)⟩,
    (vg_C9_getSystemAt_positional ⟨[⟨0, 0, 0, []⟩]⟩ 1).2 (by decide)⟩

/-- Helper: a fresh pool's free list has one slot per unit of capacity. -/
theorem FPoolAllocator.init_freeList_length (cap : Nat) :
    (FPoolAllocator.init cap).freeList.length = cap := by
  simp [FPoolAllocator.init]

/-- Helper: a fresh pool has no live blocks. -/
theorem FPoolAllocator.init_allocated (cap : Nat) :
    (FPoolAllocator.init cap).allocated = [] := rfl

/-- Helper: with at least `n` free slots, `n` consecutive allocations succeed,
removing `n` slots from the free list and adding `n` live blocks. -/
theorem FPoolAllocator.allocMany_spec (n : Nat) :
    ∀ p : FPoolAllocator, n ≤ p.freeList.length →
      ∃ q, FPoolAllocator.allocMany n p = some q ∧
        q.capacity = p.capacity ∧
        q.freeList.length = p.freeList.length - n ∧
        q.allocated.length = p.allocated.length + n := by
  induction n with
  | zero => intro p h; exact ⟨p, rfl, rfl, by simp, rfl⟩
  | succ n ih =>
    intro p h
    rcases hfl : p.freeList with _ | ⟨i, rest⟩
    · rw [hfl] at h; simp at h
    · have hstep : p.allocate
          = some (i, { p with freeList := rest, allocated := i :: p.allocated }) := by
        simp [FPoolAllocator.allocate, hfl]
      have hlen : n ≤ rest.length := by
        rw [hfl] at h; simpa [Nat.succ_le_succ_iff] using h
      obtain ⟨q, hq, hcap, hfree, halloc⟩ :=
        ih { p with freeList := rest, allocated := i :: p.allocated } hlen
      refine ⟨q, ?_, hcap, ?_, ?_⟩
      · simp [FPoolAllocator.allocMany, hstep, hq]
      · simp only [hfree, hfl, List.length_cons]; omega
      · simp only [halloc, List.length_cons]; omega

/-- C5: for the chunk allocator's fixed capacity of 500 blocks, starting from
an empty pool every prefix of up to 500 `Allocate()` calls succeeds; once 500
blocks are live the next `Allocate()` fails with exhaustion (no fallback);
after one `Free()` of a live block exactly one more `Allocate()` succeeds; and
the live-block count can never exceed capacity (allocate and free preserve the
arena accounting `live + free = capacity`, which bounds `live`). -/
theorem vg_C5_pool_capacity (n : Nat) (hn : n ≤ 500) :
    (∃ q, FPoolAllocator.allocMany n (FPoolAllocator.init 500) = some q ∧
        q.allocated.length = n ∧ q.allocated.length ≤ 500) ∧
      (∀ q, FPoolAllocator.allocMany 500 (FPoolAllocator.init 500) = some q →
          q.allocate = none ∧
          ∀ i ∈ q.allocated, ∃ r, q.free i = some r ∧
            ∃ hdl r2, r.allocate = some (hdl, r2) ∧ r2.allocate = none) ∧
      (∀ p : FPoolAllocator,
          p.allocated.length + p.freeList.length = p.capacity →
          p.allocated.length ≤ p.capacity ∧
          (∀ hdl q, p.allocate = some (hdl, q) →
            q.allocated.length + q.freeList.length = q.capacity) ∧
          (∀ i q, p.free i = some q →
            q.allocated.length + q.freeList.length = q.capacity)) := by
  refine ⟨?_, ?_, ?_⟩
  · obtain ⟨q, hq, hcap, hfree, halloc⟩ :=
      FPoolAllocator.allocMany_spec n (FPoolAllocator.init 500)
        (by rw [FPoolAllocator.init_freeList_length]; exact hn)
    rw [FPoolAllocator.init_allocated] at halloc
    simp only [List.length_nil, Nat.zero_add] at halloc
    exact ⟨q, hq, halloc, by omega⟩
  · intro q hq
    obtain ⟨q', hq', hcap, hfree, halloc⟩ :=
      FPoolAllocator.allocMany_spec 500 (FPoolAllocator.init 500)
        (by rw [FPoolAllocator.init_freeList_length])
    rw [hq] at hq'
    cases hq'
    rw [FPoolAllocator.init_freeList_length] at hfree
    have hflq : q.freeList = [] := by
      simp at hfree
      exact hfree
    constructor
    · simp [FPoolAllocator.allocate, hflq]
    · intro i hi
      refine ⟨{ q with freeList := [i], allocated := q.allocated.erase i }, ?_, ?_⟩
      · simp [FPoolAllocator.free, hi, hflq]
      · refine ⟨i, { q with freeList := [], allocated := i :: q.allocated.erase i }, ?_, ?_⟩
        · simp [FPoolAllocator.allocate]
        · simp [FPoolAllocator.allocate]
  · intro p hp
    refine ⟨by omega, ?_, ?_⟩
    · intro hdl q hq
      rcases hfl : p.freeList with _ | ⟨i, rest⟩
      · simp [FPoolAllocator.allocate, hfl] at hq
      · simp [FPoolAllocator.allocate, hfl] at hq
        obtain ⟨hh, hqq⟩ := hq
        subst hqq
        simp only [List.length_cons]
        rw [hfl] at hp
        simp at hp
        omega
    · intro i q hq
      by_cases hi : i ∈ p.allocated
      · simp [FPoolAllocator.free, hi] at hq
        subst hq
        simp only [List.length_cons]
        rw [List.length_erase_of_mem hi]
        have hpos : 1 ≤ p.allocated.length :=
          List.length_pos.mpr (List.ne_nil_of_mem hi)
        omega
      · simp [FPoolAllocator.free, hi] at hq

/-- C5 witness: the full 500-allocation prefix on the concrete
capacity-500 pool. -/
theorem vg_C5_pool_capacity_witness :
    ∃ q, FPoolAllocator.allocMany 500 (FPoolAllocator.init 500) = some q ∧
      q.allocated.length = 500 ∧ q.allocated.length ≤ 500 :=
  (vg_C5_pool_capacity 500 (Nat.le_refl 500)).1

/-- C6: from an unloaded chunk (fresh constructor state) with pool capacity
available, `Load()` succeeds and yields a Loaded chunk whose 4096 voxel
records are all in the default inactive state; after arbitrarily mutating the
voxel records, `Unload()` then `Load()` again reproduces exactly the state of
the first load — chunk and pool alike — so no state from the first load
survives the round trip. -/
theorem vg_C6_chunk_round_trip (c : FChunk) (pool : FPoolAllocator)
    (bs : List FBlock) (hb : c.mBlocks = none) (hm : c.mMesh = FMesh.deactivated)
    (hl : c.mIsLoaded = false) (hp : pool.freeList ≠ []) :
    ∃ c1 p1, c.load pool = some (c1, p1) ∧
      c1.mIsLoaded = true ∧
      (∃ h1, c1.mBlocks = some (h1, List.replicate BLOCKS_PER_CHUNK FBlock.inactive)) ∧
      ((c1.withBlocks bs).unload p1).1.load ((c1.withBlocks bs).unload p1).2
        = some (c1, p1) := by
  obtain ⟨cap, fl, al⟩ := pool
  rcases fl with _ | ⟨i, rest⟩
  · simp at hp
  · obtain ⟨cb, cm, cl⟩ := c
    simp only at hb hm hl
    subst hb; subst hm; subst hl
    refine ⟨_, _, rfl, rfl, ⟨i, rfl⟩, ?_⟩
    simp [FChunk.load, FChunk.unload, FChunk.withBlocks, FPoolAllocator.allocate,
      FPoolAllocator.free, List.erase_cons_head]

/-- C6 witness: the round trip on a fresh chunk and a one-slot pool, with the
voxel records mutated to a single active block between load and unload. -/
theorem vg_C6_chunk_round_trip_witness :
    ∃ c1 p1, FChunk.new.load (FPoolAllocator.init 1) = some (c1, p1) ∧
      c1.mIsLoaded = true ∧
      (∃ h1, c1.mBlocks = some (h1, List.replicate BLOCKS_PER_CHUNK FBlock.inactive)) ∧
      ((c1.withBlocks [⟨true⟩]).unload p1).1.load ((c1.withBlocks [⟨true⟩]).unload p1).2
        = some (c1, p1) :=
  vg_C6_chunk_round_trip FChunk.new (FPoolAllocator.init 1) [⟨true⟩]
    rfl rfl rfl (by decide)

/-- C7: `BuildMesh()` is deterministic in the voxel state — two loaded chunks
with identical voxel records build identical vertex buffers (same content in
the same stable order); calling it twice on a chunk reproduces the same mesh;
and a rebuild discards all prior geometry (the resulting mesh is independent
of whatever mesh the chunk held before). -/
theorem vg_C7_buildMesh_deterministic (c c' : FChunk) (h1 h2 : Nat)
    (bs bs' : List FBlock) (hc : c.mBlocks = some (h1, bs))
    (hc' : c'.mBlocks = some (h2, bs')) (hbs : bs = bs') :
    c.buildMesh.mMesh.vertices = c'.buildMesh.mMesh.vertices ∧
      c.buildMesh.buildMesh.mMesh = c.buildMesh.mMesh ∧
      ∀ m : FMesh, (FChunk.mk c.mBlocks m c.mIsLoaded).buildMesh.mMesh
        = c.buildMesh.mMesh := by
  subst hbs
  refine ⟨?_, ?_, ?_⟩
  · simp [FChunk.buildMesh, hc, hc']
  · simp [FChunk.buildMesh, hc]
  · intro m
    simp [FChunk.buildMesh, hc]

/-- C7 witness: two loaded chunks with the same single active voxel record but
different pool handles and different stale meshes build the same vertex
buffer. -/
theorem vg_C7_buildMesh_deterministic_witness :
    (FChunk.mk (some (0, [⟨true⟩])) FMesh.deactivated true).buildMesh.mMesh.vertices
      = (FChunk.mk (some (1, [⟨true⟩])) ⟨[(9, 9, 9)], true⟩ true).buildMesh.mMesh.vertices :=
  (vg_C7_buildMesh_deterministic
    (FChunk.mk (some (0, [⟨true⟩])) FMesh.deactivated true)
    (FChunk.mk (some (1, [⟨true⟩])) ⟨[(9, 9, 9)], true⟩ true)
    0 1 [⟨true⟩] [⟨true⟩] rfl rfl rfl).1

/-- C10: `operator!=` on `FTransform` returns exactly the logical negation of
`operator==`, and `operator==` returns true iff the parent pointers are equal
and the positions, rotations and scales all compare equal componentwise
(under IEEE float `==`). -/
theorem vg_C10_transform_eq_ne (a b : FTransform) :
    a.tne b = !(a.teq b) ∧
      (a.teq b = true ↔
        a.getParent = b.getParent ∧
          a.getPosition.veq b.getPosition = true ∧
          a.getRotation.qeq b.getRotation = true ∧
          a.getScale.veq b.getScale = true) := by
  constructor
  · simp [FTransform.tne, FTransform.teq, Vector3f.vne, FQuaternion.qne, bne,
      Bool.not_and]
  · simp [FTransform.teq, Bool.and_eq_true, beq_iff_eq, and_assoc]

end VoxGine
